import Mathlib

/-!
Verification of the `orchestra-mcp/cli` process supervisor.

This file gives a shallow embedding, in Lean, of the parts of the Go
source relevant to the frozen claims: the supervisor `RunServe`
(internal/plugins.go) — its descriptor builder, readiness poll, address
extraction, cleanup closure and exit paths — the plugin registry
(`LoadRegistry` and its consumers), and the top-level subcommand
dispatch (main.go).  Machine-level effects (file reads, process polls,
the transport exit code) are supplied by an explicit world/oracle
record; everything else is translated directly from the source.
-/

namespace Orchestra

/-! ## String machinery

Models of the Go standard-library functions used by `RunServe`:
`strings.Count` and the regular-expression search
`regexp.MustCompile("listening on (\\S+)").FindStringSubmatch`.
Strings are modelled as `List Char`.
-/

/-- The whitespace class of Go RE2's Perl class `\s`, namely
`[\t\n\f\r ]`; the regex `\S` matches exactly the characters for which
this is `false`. -/
def goSpace (c : Char) : Bool :=
  c = '\t' || c = '\n' || c = Char.ofNat 12 || c = '\r' || c = ' '

/-- `strings.Count s pat` for a non-empty `pat`: the number of
non-overlapping occurrences of `pat` in `s`, scanning left to right and
skipping past each match.  (Go's empty-pattern special case is not
modelled; every pattern used by the supervisor is a fixed non-empty
literal.) -/
def countOccsGo (pat : List Char) : Nat → List Char → Nat
  | 0, _ => 0
  | _, [] => 0
  | fuel + 1, c :: rest =>
    if pat.isPrefixOf (c :: rest) then
      1 + countOccsGo pat fuel (rest.drop (pat.length - 1))
    else
      countOccsGo pat fuel rest

/-- `strings.Count s pat` for a non-empty `pat`, entry point: the scan
consumes at least one character per step, so `s.length` steps always
suffice. -/
def countOccs (pat : List Char) (s : List Char) : Nat :=
  countOccsGo pat s.length s

/-- The readiness marker literal the supervisor counts in the log:
`"registered and booted"`. -/
def readyMarker : List Char := "registered and booted".toList

/-- The literal part of the address regex: `"listening on "`
(the regex is `listening on (\S+)`). -/
def listenPat : List Char := "listening on ".toList

/-- `FindStringSubmatch` of `listening on (\S+)` over the full log
text, returning capture group 1: the leftmost position at which the
literal `"listening on "` is followed by at least one non-whitespace
character, with the capture being the maximal run of non-whitespace
characters from there (RE2 greedy `\S+`).  `none` models a failed
match (`len(matches) < 2` in the source). -/
def extractAddr : List Char → Option (List Char)
  | [] => none
  | c :: rest =>
    let addr := ((c :: rest).drop listenPat.length).takeWhile (fun x => !goSpace x)
    if listenPat.isPrefixOf (c :: rest) && !addr.isEmpty then
      some addr
    else
      extractAddr rest

/-! ## Plugin registry

Models of `PluginEntry`, `PluginRegistry`, and `LoadRegistry`
(internal registry file).  The Go map `Plugins` is modelled as an
association list in map-iteration order; `json.Unmarshal` and the
outcome of `os.ReadFile` are supplied as oracles.
-/

/-- One installed third-party plugin (Go struct `PluginEntry`). -/
structure PluginEntry where
  id : String
  version : String
  binary : String
  repo : String
  installedAt : String
  providesTools : List String
  providesStorage : List String
  needsStorage : List String
deriving Repr, DecidableEq

/-- The persisted registry (Go struct `PluginRegistry`): the `Plugins`
map, keyed by repo URL, modelled as an association list in iteration
order. -/
structure PluginRegistry where
  plugins : List (String × PluginEntry)
deriving Repr, DecidableEq

/-- Outcome of `os.ReadFile` on the registry path. -/
inductive ReadFileResult
  | notFound
  | readFailed
  | content (data : String)
deriving Repr, DecidableEq

/-- `LoadRegistry`: if the file does not exist, an empty registry and
no error; on any other read error, that error; otherwise the result of
`json.Unmarshal` (supplied as an oracle), an unmarshal failure being an
error.  The Go nil-map fixup (`reg.Plugins == nil`) is absorbed by the
association-list model, where the unmarshaller already yields a list. -/
def loadRegistry (read : ReadFileResult)
    (unmarshal : String → Option PluginRegistry) :
    Except String PluginRegistry :=
  match read with
  | .notFound => .ok ⟨[]⟩
  | .readFailed => .error "read failed"
  | .content data =>
    match unmarshal data with
    | none => .error "unmarshal failed"
    | some reg => .ok reg

/-- Result of the shared prologue of the `plugins`, `uninstall`,
`update` and `install` subcommands. -/
inductive CmdStep (α : Type)
  | fatalStop (msg : String)
  | proceed (a : α)
deriving Repr, DecidableEq

/-- The registry prologue common to `RunPlugins`, `RunUninstall`,
`RunUpdate` and `RunInstall`: `reg, err := LoadRegistry()` followed by
`fatal("load registry: %v", err)` when the load fails. -/
def registryCmdLoad (load : Except String PluginRegistry) :
    CmdStep PluginRegistry :=
  match load with
  | .error e => .fatalStop ("load registry: " ++ e)
  | .ok reg => .proceed reg

/-! ## Descriptor builder

Model of the configuration assembled by `RunServe` before the hub is
launched: the hard-coded built-in plugin entries, followed by the
registry entries whose binaries still exist on disk.  Binary paths and
filesystem existence are supplied as oracles (`bins`, `fileExists`).
-/

/-- One entry of the materialized hub configuration
(Go struct `pluginConfig`). -/
structure PluginCfg where
  id : String
  binary : String
  enabled : Bool
  providesStorage : List String
  args : List String
deriving Repr, DecidableEq

/-- The materialized hub configuration
(Go struct `orchestratorConfig`). -/
structure OrchestratorCfg where
  listenAddr : String
  certsDir : String
  plugins : List PluginCfg
deriving Repr, DecidableEq

/-- The configuration literal built by `RunServe` before registry
entries are appended: listen address `localhost:0`, the resolved certs
directory, and the two built-in plugin entries.  `storage.markdown`
receives a `--workspace=` argument; `tools.features` is declared with
only `ID`, `Binary` and `Enabled`, so its `ProvidesStorage` and `Args`
fields are the Go zero values (empty). -/
def baseConfig (absWorkspace absCertsDir : String)
    (bins : String → String) : OrchestratorCfg :=
  { listenAddr := "localhost:0"
    certsDir := absCertsDir
    plugins :=
      [ { id := "storage.markdown"
          binary := bins "storage-markdown"
          enabled := true
          providesStorage := ["markdown"]
          args := ["--workspace=" ++ absWorkspace] },
        { id := "tools.features"
          binary := bins "tools-features"
          enabled := true
          providesStorage := []
          args := [] } ] }

/-- The config entry appended for one registry plugin whose binary
still exists. -/
def regPluginCfg (absWorkspace : String) (p : PluginEntry) : PluginCfg :=
  { id := p.id
    binary := p.binary
    enabled := true
    providesStorage := p.providesStorage
    args := ["--workspace=" ++ absWorkspace] }

/-- The registry loop of `RunServe`: for each registry entry, skip it
silently when `os.Stat` on its binary fails, otherwise append its
config entry. -/
def registryPlugins (absWorkspace : String) (fileExists : String → Bool) :
    List (String × PluginEntry) → List PluginCfg
  | [] => []
  | (_, p) :: rest =>
    if fileExists p.binary then
      regPluginCfg absWorkspace p :: registryPlugins absWorkspace fileExists rest
    else
      registryPlugins absWorkspace fileExists rest

/-- The full configuration assembled by `RunServe`: the built-in
entries, then — only when `LoadRegistry` returned without error — the
registry entries whose binaries exist.  A registry load error is not
fatal here: the guard `if err == nil && registry != nil` silently
drops the registry and the boot proceeds with the built-ins alone. -/
def serveConfig (absWorkspace absCertsDir : String)
    (bins : String → String) (fileExists : String → Bool)
    (regLoad : Except String PluginRegistry) : OrchestratorCfg :=
  let base := baseConfig absWorkspace absCertsDir bins
  match regLoad with
  | .error _ => base
  | .ok reg =>
    { base with
        plugins :=
          base.plugins ++ registryPlugins absWorkspace fileExists reg.plugins }

/-! ## Readiness poll

Model of the `AWAITING_READY` loop of `RunServe`: up to 30 iterations,
each sleeping 500 ms (time is not modelled), reading the log file,
counting occurrences of the readiness marker, and consulting
`orchCmd.ProcessState`.  The log contents seen at each poll and the
value of the `ProcessState != nil` test are supplied as oracles.
-/

/-- Terminal result of the readiness loop, carrying the number of
polls performed: `ready` when the marker count reached 2, `hubExited`
when the `ProcessState` test fired (a fatal error in the source),
`timeout` when the attempt ceiling elapsed (also fatal). -/
inductive WaitOutcome
  | ready (attempts : Nat)
  | hubExited (attempts : Nat)
  | timeout (attempts : Nat)
deriving Repr, DecidableEq

/-- The poll loop body, translated from the `for i := 0; i < 30; i++`
loop: read the log, count `"registered and booted"` occurrences, break
ready at two or more; otherwise fail fatally when the process-state
test is true; otherwise keep polling.  `i` is the number of polls
already performed and `fuel` the number remaining. -/
def pollLoop (logAt : Nat → List Char) (processStateNonNil : Nat → Bool)
    (i fuel : Nat) : WaitOutcome :=
  match fuel with
  | 0 => .timeout i
  | fuel' + 1 =>
    if 2 ≤ countOccs readyMarker (logAt i) then .ready (i + 1)
    else if processStateNonNil i then .hubExited (i + 1)
    else pollLoop logAt processStateNonNil (i + 1) fuel'

/-- The readiness wait as `RunServe` actually executes it.  The loop
tests `orchCmd.ProcessState != nil`, but the `os/exec` contract
populates `ProcessState` only inside `Wait` or `Run`, and `RunServe`
never calls either on `orchCmd`; the test is therefore identically
false on every poll, whatever the hub process is doing. -/
def awaitReady (logAt : Nat → List Char) : WaitOutcome :=
  pollLoop logAt (fun _ => false) 0 30

/-- Modelled from the spec: the readiness wait in which, as the spec
words it, on each poll the supervisor also checks "whether the hub
process has already exited" and, if so, aborts immediately.  Here the
exit test consults the actual state of the hub process, supplied as
the oracle `hubHasExited`. -/
def awaitReadySpec (logAt : Nat → List Char) (hubHasExited : Nat → Bool) :
    WaitOutcome :=
  pollLoop logAt hubHasExited 0 30

/-! ## Serve run: exit paths after the hub is launched

Model of `RunServe` from the start of the readiness wait to process
exit.  Go `defer` semantics are decisive here: deferred functions run
on a normal return, but `os.Exit` — called both by `fatal` and on a
non-zero transport exit — terminates the process immediately without
running them.  The `cleanupRan` and `pidFileRemoved` fields record
whether the deferred `cleanup` closure and the deferred
`os.Remove(pidFile)` actually executed on the path taken.
-/

/-- The externally observable effects the run ends with. -/
structure ServeResult where
  exitCode : Nat
  fatalMsg : Option String
  cleanupRan : Bool
  pidFileRemoved : Bool
  transportArgs : Option (List String)
deriving Repr, DecidableEq

/-- Oracle inputs for one run: the log contents seen at each poll, the
log contents at the post-readiness read, the transport process exit
code, and the resolved log-file and certs-dir paths. -/
structure ServeWorld where
  pollLog : Nat → List Char
  finalLog : List Char
  transportExitCode : Nat
  logFile : String
  certsDir : String

/-- `RunServe` after the hub process has been started: run the
readiness wait; on timeout or a fired process-state test, `fatal`
prints the diagnostic and calls `os.Exit(1)`, skipping the deferred
cleanup and pid-file removal.  After readiness, extract the address
from a fresh read of the log; no match is again `fatal`.  With an
address, the transport process runs with stdin/stdout passthrough; a
zero exit falls through to a normal return (deferred functions run), a
non-zero exit calls `os.Exit` with that code (deferred functions
skipped). -/
def serveAfterLaunch (w : ServeWorld) : ServeResult :=
  match awaitReady w.pollLog with
  | .hubExited _ =>
    { exitCode := 1
      fatalMsg := some ("orchestrator exited unexpectedly. Check " ++ w.logFile)
      cleanupRan := false
      pidFileRemoved := false
      transportArgs := none }
  | .timeout _ =>
    { exitCode := 1
      fatalMsg := some ("orchestrator did not become ready in 15 seconds. Check " ++ w.logFile)
      cleanupRan := false
      pidFileRemoved := false
      transportArgs := none }
  | .ready _ =>
    match extractAddr w.finalLog with
    | none =>
      { exitCode := 1
        fatalMsg := some ("could not determine orchestrator address. Check " ++ w.logFile)
        cleanupRan := false
        pidFileRemoved := false
        transportArgs := none }
    | some addr =>
      let args := ["--orchestrator-addr=" ++ addr.asString,
                   "--certs-dir=" ++ w.certsDir]
      if w.transportExitCode = 0 then
        { exitCode := 0
          fatalMsg := none
          cleanupRan := true
          pidFileRemoved := true
          transportArgs := some args }
      else
        { exitCode := w.transportExitCode
          fatalMsg := none
          cleanupRan := false
          pidFileRemoved := false
          transportArgs := some args }

/-- The signal-handler goroutine: on SIGINT/SIGTERM it calls the
cleanup closure once and then `os.Exit(0)`, which skips the deferred
`os.Remove(pidFile)`. -/
def signalPathResult : ServeResult :=
  { exitCode := 0
    fatalMsg := none
    cleanupRan := true
    pidFileRemoved := false
    transportArgs := none }

/-! ## The cleanup closure

Model of the `cleanup` closure of `RunServe` in the regime after
`orchCmd` has been assigned: kill the children of the hub, SIGTERM the
hub, wait, force-kill children and hub, then remove the temporary
config file.  Every operation discards its error (`.Run()` results,
`Signal`/`Kill` results and the `os.Remove` result are all ignored),
so the closure is modelled as a total function on the owned-resource
state with no error outcome.  The pid file is not touched by the
closure. -/

/-- The resources a run owns while the hub is up. -/
structure CleanupState where
  hubRunning : Bool
  tmpConfigExists : Bool
  pidFileExists : Bool
deriving Repr, DecidableEq

/-- The cleanup closure: hub tree terminated, temp config removed, pid
file untouched. -/
def cleanup (s : CleanupState) : CleanupState :=
  { hubRunning := false
    tmpConfigExists := false
    pidFileExists := s.pidFileExists }

/-! ## Top-level dispatch (main.go) -/

/-- The subcommand handler `main` selects. -/
inductive CliAction
  | runInit (args : List String)
  | runServe (args : List String)
  | runInstall (args : List String)
  | runPlugins (args : List String)
  | runUninstall (args : List String)
  | runUpdate (args : List String)
  | runVersion
  | printUsage
deriving Repr, DecidableEq

/-- `main`, on the argument vector after the program name: no
arguments at all defaults to serve with no flags; a recognized first
argument selects its handler with the remaining arguments; anything
else is treated as serve flags, the whole vector passed through. -/
def dispatch : List String → CliAction
  | [] => .runServe []
  | "init" :: rest => .runInit rest
  | "serve" :: rest => .runServe rest
  | "start" :: rest => .runServe rest
  | "install" :: rest => .runInstall rest
  | "plugins" :: rest => .runPlugins rest
  | "uninstall" :: rest => .runUninstall rest
  | "remove" :: rest => .runUninstall rest
  | "update" :: rest => .runUpdate rest
  | "upgrade" :: rest => .runUpdate rest
  | "version" :: _ => .runVersion
  | "--version" :: _ => .runVersion
  | "-v" :: _ => .runVersion
  | "help" :: _ => .printUsage
  | "--help" :: _ => .printUsage
  | "-h" :: _ => .printUsage
  | cmd :: rest => .runServe (cmd :: rest)

/-! ## Concrete run fixtures -/

/-- A log in which both built-ins have booted and the hub has
announced its address. -/
def readyLog : List Char :=
  ("storage registered and booted\ntools registered and booted\nlistening on 127.0.0.1:54321\n").toList

/-- A log with both readiness markers but no address announcement. -/
def twoMarkersLog : List Char :=
  ("storage registered and booted\ntools registered and booted\n").toList

/-- A run in which the hub becomes ready and announces its address,
and the transport exits with the given code. -/
def wReady (code : Nat) : ServeWorld :=
  { pollLog := fun _ => readyLog
    finalLog := readyLog
    transportExitCode := code
    logFile := "/w/.orchestra-mcp.log"
    certsDir := "/certs" }

/-- A run in which the log stays empty: no readiness marker ever
appears. -/
def wStuck : ServeWorld :=
  { pollLog := fun _ => []
    finalLog := []
    transportExitCode := 0
    logFile := "/w/.orchestra-mcp.log"
    certsDir := "/certs" }

/-- A run in which readiness is reached but the hub never announces an
address. -/
def wNoAddr : ServeWorld :=
  { pollLog := fun _ => twoMarkersLog
    finalLog := twoMarkersLog
    transportExitCode := 0
    logFile := "/w/.orchestra-mcp.log"
    certsDir := "/certs" }

/-! ## Helper lemmas -/

theorem pollLoop_timeout_of_no_markers (logAt : Nat → List Char) :
    ∀ (fuel i : Nat),
      (∀ j, j < i + fuel → countOccs readyMarker (logAt j) < 2) →
      pollLoop logAt (fun _ => false) i fuel = .timeout (i + fuel) := by
  intro fuel
  induction fuel with
  | zero => intro i _; simp [pollLoop]
  | succ fuel ih =>
    intro i h
    have hi : countOccs readyMarker (logAt i) < 2 := h i (by omega)
    have hrec := ih (i + 1) (fun j hj => h j (by omega))
    simp only [pollLoop, if_neg (by omega : ¬ 2 ≤ countOccs readyMarker (logAt i)),
      Bool.false_eq_true, if_false, hrec]
    congr 1
    omega

theorem registryPlugins_eq_filter_map (ws : String) (ex : String → Bool) :
    ∀ l : List (String × PluginEntry),
      registryPlugins ws ex l
        = (l.filter (fun e => ex e.2.binary)).map (fun e => regPluginCfg ws e.2) := by
  intro l
  induction l with
  | nil => rfl
  | cons e rest ih =>
    obtain ⟨k, p⟩ := e
    by_cases hb : ex p.binary
    · simp [registryPlugins, List.filter, hb, ih]
    · simp [registryPlugins, List.filter, hb, ih]

theorem takeWhile_append_of_all {p : Char → Bool} :
    ∀ {a b : List Char}, (∀ c ∈ a, p c = true) →
      (a ++ b).takeWhile p = a ++ b.takeWhile p := by
  intro a
  induction a with
  | nil => intro b _; rfl
  | cons c rest ih =>
    intro b h
    have hc : p c = true := h c (by simp)
    simp [List.takeWhile, hc, ih (fun x hx => h x (by simp [hx]))]

theorem extractAddr_cons_pos (c : Char) (rest : List Char)
    (hpre : listenPat.isPrefixOf (c :: rest) = true)
    (hne : ((c :: rest).drop listenPat.length).takeWhile (fun x => !goSpace x) ≠ []) :
    extractAddr (c :: rest)
      = some (((c :: rest).drop listenPat.length).takeWhile (fun x => !goSpace x)) := by
  simp only [extractAddr, hpre, Bool.true_and]
  rw [if_pos]
  simp [List.isEmpty_iff, hne]

theorem extractAddr_append_pos (x : List Char)
    (hne : x.takeWhile (fun c => !goSpace c) ≠ []) :
    extractAddr (listenPat ++ x) = some (x.takeWhile (fun c => !goSpace c)) := by
  have hsplit : listenPat ++ x = 'l' :: ("istening on ".toList ++ x) := rfl
  have hpre : listenPat.isPrefixOf ('l' :: ("istening on ".toList ++ x)) = true := by
    rw [← hsplit, List.isPrefixOf_iff_prefix]
    exact List.prefix_append _ _
  have hdrop : ('l' :: ("istening on ".toList ++ x)).drop listenPat.length = x := by
    rw [← hsplit, List.drop_left]
  rw [hsplit, extractAddr_cons_pos 'l' _ hpre (by rw [hdrop]; exact hne), hdrop]

/-! ## Claim theorems -/

/-- C1: the claim says the shutdown sequence (kill the hub tree, then
delete the temp config) runs exactly once on every exit path of
`RunServe`, including fatal errors after the hub is launched and a
non-zero transport exit.  The code does not do this: `fatal` calls
`os.Exit(1)` and a non-zero transport exit calls `os.Exit(code)`, and
`os.Exit` terminates the process without running deferred functions,
so the deferred `cleanup` closure is skipped on exactly those paths.
This theorem evaluates the run model at the failing inputs: with the
transport exiting 2, and with a readiness timeout, the cleanup closure
never runs (and the pid file also stays behind), while a normal
zero-exit completion does run it. -/
theorem shutdown_sequence_skipped_on_exit_paths :
    (serveAfterLaunch (wReady 2)).cleanupRan = false
      ∧ (serveAfterLaunch (wReady 2)).exitCode = 2
      ∧ (serveAfterLaunch wStuck).cleanupRan = false
      ∧ (serveAfterLaunch wStuck).exitCode = 1
      ∧ (serveAfterLaunch wStuck).pidFileRemoved = false
      ∧ (serveAfterLaunch (wReady 0)).cleanupRan = true := by
  decide

/-- C2: the claim says that when the hub process exits before the
readiness threshold is reached, the supervisor aborts the wait with a
fatal error on the next poll instead of polling out the 30-attempt
ceiling.  The loop indeed contains such a test, but it reads
`orchCmd.ProcessState`, which Go populates only inside `Wait` or
`Run` — neither of which `RunServe` ever calls on `orchCmd` — so the
test is identically false and the early abort can never fire.  At the
failing input (hub dead from the first poll, log empty) the code
polls all 30 attempts and exits with the timeout diagnostic, whereas
the behaviour worded by the spec aborts after the first poll. -/
theorem dead_hub_abort_divergence :
    awaitReady (fun _ => []) = .timeout 30
      ∧ awaitReadySpec (fun _ => []) (fun _ => true) = .hubExited 1
      ∧ (serveAfterLaunch wStuck).fatalMsg
          = some ("orchestrator did not become ready in 15 seconds. Check "
              ++ wStuck.logFile) := by
  decide

/-- C3: for every registry, the descriptor list built by `RunServe` is
exactly the two built-ins followed by one descriptor per registry
entry whose binary exists, hence has length `2 + N` where `N` counts
the entries with existing binaries; entries with missing binaries are
dropped with no error outcome. -/
theorem descriptor_builder_count (ws cd : String) (bins : String → String)
    (ex : String → Bool) (reg : PluginRegistry) :
    (serveConfig ws cd bins ex (.ok reg)).plugins.length
        = 2 + reg.plugins.countP (fun e => ex e.2.binary)
      ∧ (serveConfig ws cd bins ex (.ok reg)).plugins
        = (baseConfig ws cd bins).plugins
            ++ (reg.plugins.filter (fun e => ex e.2.binary)).map
                (fun e => regPluginCfg ws e.2) := by
  have hplug : (serveConfig ws cd bins ex (.ok reg)).plugins
      = (baseConfig ws cd bins).plugins
          ++ (reg.plugins.filter (fun e => ex e.2.binary)).map
              (fun e => regPluginCfg ws e.2) := by
    simp [serveConfig, registryPlugins_eq_filter_map]
  refine ⟨?_, hplug⟩
  rw [hplug]
  simp [baseConfig, List.countP_eq_length_filter]
  omega

/-- C4: in every run in which the log never shows at least two
occurrences of `"registered and booted"`, the readiness poll performs
exactly 30 attempts (each preceded by a 500 ms sleep, a 15-second
ceiling; wall-clock time itself is not modelled) and then terminates
the run fatally with a diagnostic naming the log file — neither
earlier nor indefinitely.  Because the dead-hub test in the loop can
never fire (see the C2 theorem), this holds however the hub process
behaves. -/
theorem readiness_poll_ceiling (w : ServeWorld)
    (h : ∀ i, i < 30 → countOccs readyMarker (w.pollLog i) < 2) :
    awaitReady w.pollLog = .timeout 30
      ∧ serveAfterLaunch w =
          { exitCode := 1
            fatalMsg := some ("orchestrator did not become ready in 15 seconds. Check "
              ++ w.logFile)
            cleanupRan := false
            pidFileRemoved := false
            transportArgs := none } := by
  have ht : awaitReady w.pollLog = .timeout 30 := by
    have := pollLoop_timeout_of_no_markers w.pollLog 30 0 (fun j hj => h j (by omega))
    simpa [awaitReady] using this
  refine ⟨ht, ?_⟩
  simp [serveAfterLaunch, ht]

/-- Witness for C4 at a run whose log stays empty. -/
theorem readiness_poll_ceiling_witness :
    (∀ i, i < 30 → countOccs readyMarker (wStuck.pollLog i) < 2)
      ∧ awaitReady wStuck.pollLog = .timeout 30 := by
  have h : ∀ i, i < 30 → countOccs readyMarker (wStuck.pollLog i) < 2 :=
    fun _ _ => (by decide : countOccs readyMarker ([] : List Char) < 2)
  exact ⟨h, (readiness_poll_ceiling wStuck h).1⟩

/-- C5: after readiness, the supervisor extracts the hub address with
the fixed pattern over the full log text: on a log containing the line
`listening on 127.0.0.1:54321` it resolves exactly `127.0.0.1:54321`
and hands it verbatim to the transport process; on any post-readiness
log with no match it exits fatally (no default address, no transport
launch). -/
theorem address_extraction_contract (w : ServeWorld) (n : Nat)
    (hready : awaitReady w.pollLog = .ready n)
    (hnone : extractAddr w.finalLog = none) :
    extractAddr readyLog = some ("127.0.0.1:54321".toList)
      ∧ (serveAfterLaunch (wReady 0)).transportArgs
          = some ["--orchestrator-addr=127.0.0.1:54321", "--certs-dir=/certs"]
      ∧ serveAfterLaunch w =
          { exitCode := 1
            fatalMsg := some ("could not determine orchestrator address. Check "
              ++ w.logFile)
            cleanupRan := false
            pidFileRemoved := false
            transportArgs := none } := by
  refine ⟨by decide, by decide, ?_⟩
  simp [serveAfterLaunch, hready, hnone]

/-- Witness for C5 at a run that becomes ready but whose log contains
no address line. -/
theorem address_extraction_contract_witness :
    awaitReady wNoAddr.pollLog = .ready 1
      ∧ extractAddr wNoAddr.finalLog = none
      ∧ (serveAfterLaunch wNoAddr).fatalMsg
          = some ("could not determine orchestrator address. Check "
              ++ wNoAddr.logFile) := by
  refine ⟨by decide, by decide, ?_⟩
  rw [(address_extraction_contract wNoAddr 1 (by decide) (by decide)).2.2]

/-- C6 counterexample: the claim says every consumer, supervisor start
included, treats an invalid registry file as a fatal configuration
error.  In `RunServe` the guard `if err == nil && registry != nil`
silently swallows a registry load error: the boot proceeds with just
the two built-in descriptors and no fatal outcome. -/
theorem serve_ignores_registry_error :
    serveConfig "/w" "/c" (fun n => "/bin/" ++ n) (fun _ => true)
        (.error "unmarshal failed")
      = baseConfig "/w" "/c" (fun n => "/bin/" ++ n)
      ∧ (serveConfig "/w" "/c" (fun n => "/bin/" ++ n) (fun _ => true)
          (.error "unmarshal failed")).plugins.length = 2 := by
  decide

/-- C6 amended: `LoadRegistry` returns an empty registry and no error
when the file is absent, and an error when the file exists but does
not unmarshal; the `install`, `plugins`, `uninstall` and `update`
commands treat that error as fatal (`load registry: ...`), but
supervisor start does not — `RunServe` ignores a registry load error
and boots with only the built-in descriptors. -/
theorem registry_error_handling (unmarshal : String → Option PluginRegistry)
    (data : String) (hbad : unmarshal data = none) (e : String)
    (ws cd : String) (bins : String → String) (ex : String → Bool) :
    loadRegistry .notFound unmarshal = .ok ⟨[]⟩
      ∧ loadRegistry (.content data) unmarshal = .error "unmarshal failed"
      ∧ registryCmdLoad (.error e) = .fatalStop ("load registry: " ++ e)
      ∧ serveConfig ws cd bins ex (.error e) = baseConfig ws cd bins := by
  refine ⟨rfl, ?_, rfl, rfl⟩
  simp [loadRegistry, hbad]

/-- Witness for C6 with a concrete failing unmarshaller. -/
theorem registry_error_handling_witness :
    (fun _ : String => (none : Option PluginRegistry)) "bad data" = none
      ∧ loadRegistry (.content "bad data") (fun _ => none) = .error "unmarshal failed"
      ∧ registryCmdLoad (.error "unmarshal failed")
          = .fatalStop "load registry: unmarshal failed" := by
  refine ⟨rfl, ?_, ?_⟩
  · exact (registry_error_handling (fun _ => none) "bad data" rfl "unmarshal failed"
      "/w" "/c" (fun n => n) (fun _ => true)).2.1
  · exact (registry_error_handling (fun _ => none) "bad data" rfl "unmarshal failed"
      "/w" "/c" (fun n => n) (fun _ => true)).2.2.1

/-- C7 counterexample: the claim says each built-in descriptor carries
a `--workspace=<path>` argument.  The `tools.features` built-in is
declared with no `Args` field at all, so its argument list is empty
and carries no workspace argument. -/
theorem tools_descriptor_lacks_workspace_arg :
    ¬ (∀ p ∈ (baseConfig "/w" "/c" (fun n => "/bin/" ++ n)).plugins,
        "--workspace=/w" ∈ p.args) := by
  decide

/-- C7 amended: the descriptor builder emits both built-in descriptors
(storage, then tools) unconditionally for every input, each with the
enabled flag set; the storage built-in carries the
`--workspace=<path>` argument for the resolved workspace, while the
tools built-in carries no arguments. -/
theorem builtin_descriptors (ws cd : String) (bins : String → String)
    (ex : String → Bool) (regLoad : Except String PluginRegistry) :
    (serveConfig ws cd bins ex regLoad).plugins.take 2
        = (baseConfig ws cd bins).plugins
      ∧ (baseConfig ws cd bins).plugins.map (fun p => p.id)
        = ["storage.markdown", "tools.features"]
      ∧ (∀ p ∈ (baseConfig ws cd bins).plugins, p.enabled = true)
      ∧ (∃ p ∈ (baseConfig ws cd bins).plugins,
          p.id = "storage.markdown" ∧ ("--workspace=" ++ ws) ∈ p.args)
      ∧ (∀ p ∈ (baseConfig ws cd bins).plugins,
          p.id = "tools.features" → p.args = []) := by
  refine ⟨?_, by simp [baseConfig], ?_, ?_, ?_⟩
  · cases regLoad with
    | error e => simp [serveConfig, baseConfig]
    | ok reg =>
      have : (baseConfig ws cd bins).plugins.length = 2 := by simp [baseConfig]
      simp only [serveConfig]
      rw [← this, List.take_left]
  · intro p hp
    simp only [baseConfig, List.mem_cons, List.mem_singleton] at hp
    rcases hp with h | h | h
    · rw [h]
    · rw [h]
    · cases h
  · refine ⟨PluginCfg.mk "storage.markdown" (bins "storage-markdown") true
        ["markdown"] ["--workspace=" ++ ws], ?_, rfl, ?_⟩
    · simp [baseConfig]
    · simp
  · intro p hp hid
    simp only [baseConfig, List.mem_cons, List.mem_singleton] at hp
    rcases hp with h | h | h
    · exfalso
      rw [h] at hid
      simp at hid
    · rw [h]
    · cases h

/-- C8 counterexample: the claim says that after the cleanup closure
has run, neither the temp config file nor the pid file remains on
disk.  The closure does not touch the pid file: invoked with the pid
file present, it leaves the pid file present. -/
theorem cleanup_leaves_pid_file :
    (cleanup { hubRunning := true, tmpConfigExists := true, pidFileExists := true }).pidFileExists
      = true := by
  decide

/-- C8 amended: the cleanup closure is idempotent — a second
invocation changes nothing and, since every kill/remove result is
discarded in the source, produces no error or panic — and after it
runs the temp config file is gone and the hub tree is down; the pid
file is untouched by the closure (it is removed only by a separate
deferred call, which runs on the normal-return path alone). -/
theorem cleanup_idempotent (s : CleanupState) :
    cleanup (cleanup s) = cleanup s
      ∧ (cleanup s).tmpConfigExists = false
      ∧ (cleanup s).hubRunning = false
      ∧ (cleanup s).pidFileExists = s.pidFileExists := by
  exact ⟨rfl, rfl, rfl, rfl⟩

/-- C9: when the shared log contains more than one line matching
`listening on <address>`, the supervisor resolves the address of the
first match in file order — the regex search is leftmost — and hands
exactly that address to the transport process. -/
theorem first_listen_match_used (a1 a2 mid : List Char)
    (h1 : a1 ≠ []) (h2 : ∀ c ∈ a1, goSpace c = false) :
    extractAddr (listenPat ++ (a1 ++ '\n' :: (mid ++ listenPat ++ (a2 ++ ['\n']))))
        = some a1
      ∧ (serveAfterLaunch
          { pollLog := fun _ => twoMarkersLog
            finalLog := listenPat ++ (a1 ++ '\n' :: (mid ++ listenPat ++ (a2 ++ ['\n'])))
            transportExitCode := 0
            logFile := "/w/.orchestra-mcp.log"
            certsDir := "/certs" }).transportArgs
        = some ["--orchestrator-addr=" ++ a1.asString, "--certs-dir=/certs"] := by
  have hx : (a1 ++ '\n' :: (mid ++ listenPat ++ (a2 ++ ['\n']))).takeWhile
      (fun c => !goSpace c) = a1 := by
    rw [takeWhile_append_of_all (fun c hc => by simp [h2 c hc])]
    simp [List.takeWhile_cons, goSpace]
  have hfirst : extractAddr
      (listenPat ++ (a1 ++ '\n' :: (mid ++ listenPat ++ (a2 ++ ['\n'])))) = some a1 := by
    rw [extractAddr_append_pos _ (by rw [hx]; exact h1), hx]
  have hready : awaitReady (fun _ => twoMarkersLog) = .ready 1 := by decide
  refine ⟨hfirst, ?_⟩
  have hfirst' := hfirst
  simp only [List.append_assoc] at hfirst'
  simp [serveAfterLaunch, hready, hfirst']

/-- Witness for C9 with two concrete address lines. -/
theorem first_listen_match_used_witness :
    ("127.0.0.1:1".toList ≠ [])
      ∧ (∀ c ∈ "127.0.0.1:1".toList, goSpace c = false)
      ∧ extractAddr (listenPat ++ ("127.0.0.1:1".toList
          ++ '\n' :: ("x\n".toList ++ listenPat ++ ("9.9.9.9:2".toList ++ ['\n']))))
        = some "127.0.0.1:1".toList := by
  refine ⟨by decide, by decide, ?_⟩
  exact (first_listen_match_used "127.0.0.1:1".toList "9.9.9.9:2".toList "x\n".toList
    (by decide) (by decide)).1

/-- C10: every invocation whose first argument is not a recognized
subcommand falls through to the serve path with the whole argument
vector passed as serve flags, and an invocation with no arguments at
all also runs serve (with no flags). -/
theorem dispatch_default_serve (cmd : String) (rest : List String)
    (h : cmd ∉ (["init", "serve", "start", "install", "plugins", "uninstall",
      "remove", "update", "upgrade", "version", "--version", "-v",
      "help", "--help", "-h"] : List String)) :
    dispatch (cmd :: rest) = .runServe (cmd :: rest)
      ∧ dispatch [] = .runServe [] := by
  refine ⟨?_, rfl⟩
  rw [dispatch.eq_def]
  split
  all_goals simp_all

/-- Witness for C10 at an unrecognized first argument. -/
theorem dispatch_default_serve_witness :
    ("--workspace=/x" ∉ (["init", "serve", "start", "install", "plugins",
      "uninstall", "remove", "update", "upgrade", "version", "--version", "-v",
      "help", "--help", "-h"] : List String))
      ∧ dispatch ["--workspace=/x", "--log=/l"]
        = .runServe ["--workspace=/x", "--log=/l"] := by
  refine ⟨by decide, ?_⟩
  exact (dispatch_default_serve "--workspace=/x" ["--log=/l"] (by decide)).1

end Orchestra
